import Mathlib

/-!
Verification of the webhook ingestion service (FastAPI application under
`src/app`): signature authentication, payload validation, idempotent
persistence, read endpoints and the per-request audit log.

The Python source is shallowly embedded: the database table is a list of
rows, byte strings are lists of naturals below 256, machine words are
naturals reduced modulo `2 ^ 32`, and fallible steps return explicit sum
types.  Each definition is translated from the corresponding function of
the source (`src/app/main.py`, `src/app/storage.py`,
`src/app/logging_utils.py`, `src/app/models.py`); standard-library calls
(`hashlib.sha256`, `hmac.new`, `datetime.fromisoformat`) are modelled by
executable Lean functions described at their declaration.
-/

namespace Webhook

/-! ## Bytes and 32-bit words

A byte is a `Nat` below 256; a word is a `Nat` below `2 ^ 32`.  All word
arithmetic reduces modulo `2 ^ 32` explicitly. -/

/-- Addition of 32-bit words, reduced modulo `2 ^ 32`. -/
def add32 (a b : Nat) : Nat := (a + b) % 4294967296

/-- Right rotation of a 32-bit word by `n` bits. -/
def rotr32 (n x : Nat) : Nat :=
  ((x >>> n) ||| (x <<< (32 - n))) % 4294967296

/-- Right shift of a 32-bit word. -/
def shr32 (n x : Nat) : Nat := x >>> n

/-- Bitwise complement of a 32-bit word. -/
def not32 (x : Nat) : Nat := x ^^^ 4294967295

/-! ## SHA-256

Model of Python's `hashlib.sha256` (FIPS 180-4).  The hash state is the
eight working words; messages are byte lists. -/

/-- The eight 32-bit words of a SHA-256 state. -/
structure Sha256State where
  a : Nat
  b : Nat
  c : Nat
  d : Nat
  e : Nat
  f : Nat
  g : Nat
  h : Nat
deriving Repr, DecidableEq

/-- SHA-256 initial hash value (FIPS 180-4 §5.3.3). -/
def sha256Init : Sha256State :=
  ⟨0x6a09e667, 0xbb67ae85, 0x3c6ef372, 0xa54ff53a,
   0x510e527f, 0x9b05688c, 0x1f83d9ab, 0x5be0cd19⟩

/-- SHA-256 round constants (first 32 bits of the fractional parts of the
cube roots of the first 64 primes). -/
def sha256K : List Nat :=
  [1116352408, 1899447441, 3049323471, 3921009573,
   961987163, 1508970993, 2453635748, 2870763221,
   3624381080, 310598401, 607225278, 1426881987,
   1925078388, 2162078206, 2614888103, 3248222580,
   3835390401, 4022224774, 264347078, 604807628,
   770255983, 1249150122, 1555081692, 1996064986,
   2554220882, 2821834349, 2952996808, 3210313671,
   3336571891, 3584528711, 113926993, 338241895,
   666307205, 773529912, 1294757372, 1396182291,
   1695183700, 1986661051, 2177026350, 2456956037,
   2730485921, 2820302411, 3259730800, 3345764771,
   3516065817, 3600352804, 4094571909, 275423344,
   430227734, 506948616, 659060556, 883997877,
   958139571, 1322822218, 1537002063, 1747873779,
   1955562222, 2024104815, 2227730452, 2361852424,
   2428436474, 2756734187, 3204031479, 3329325298]

/-- Packs a byte list into big-endian 32-bit words (four bytes per word). -/
def bytesToWords : List Nat → List Nat
  | b0 :: b1 :: b2 :: b3 :: rest =>
      (((b0 * 256 + b1) * 256 + b2) * 256 + b3) :: bytesToWords rest
  | _ => []

/-- Message-schedule small sigma 0. -/
def ssig0 (x : Nat) : Nat := rotr32 7 x ^^^ rotr32 18 x ^^^ shr32 3 x

/-- Message-schedule small sigma 1. -/
def ssig1 (x : Nat) : Nat := rotr32 17 x ^^^ rotr32 19 x ^^^ shr32 10 x

/-- Extends the 16 block words to the 64 schedule words.  The accumulator
holds the schedule produced so far, newest word first. -/
def extendW : Nat → List Nat → List Nat
  | 0, acc => acc.reverse
  | n + 1, acc =>
      extendW n
        (add32 (add32 (acc.getD 15 0) (ssig0 (acc.getD 14 0)))
          (add32 (acc.getD 6 0) (ssig1 (acc.getD 1 0))) :: acc)

/-- One SHA-256 round: `kw` is the round constant already added to the
schedule word. -/
def sha256Round (s : Sha256State) (kw : Nat) : Sha256State :=
  let S1 := rotr32 6 s.e ^^^ rotr32 11 s.e ^^^ rotr32 25 s.e
  let ch := (s.e &&& s.f) ^^^ (not32 s.e &&& s.g)
  let temp1 := add32 (add32 s.h S1) (add32 ch kw)
  let S0 := rotr32 2 s.a ^^^ rotr32 13 s.a ^^^ rotr32 22 s.a
  let maj := (s.a &&& s.b) ^^^ (s.a &&& s.c) ^^^ (s.b &&& s.c)
  let temp2 := add32 S0 maj
  ⟨add32 temp1 temp2, s.a, s.b, s.c, add32 s.d temp1, s.e, s.f, s.g⟩

/-- Processes one 64-byte block into the running state. -/
def sha256Block (s : Sha256State) (block : List Nat) : Sha256State :=
  let w := extendW 48 (bytesToWords block).reverse
  let t := (w.zip sha256K).foldl (fun st p => sha256Round st (add32 p.1 p.2)) s
  ⟨add32 s.a t.a, add32 s.b t.b, add32 s.c t.c, add32 s.d t.d,
   add32 s.e t.e, add32 s.f t.f, add32 s.g t.g, add32 s.h t.h⟩

/-- Big-endian encoding of `n` into `k` bytes. -/
def natToBytesBE : Nat → Nat → List Nat
  | 0, _ => []
  | k + 1, n => natToBytesBE k (n / 256) ++ [n % 256]

/-- SHA-256 padding: a `0x80` byte, zeros, then the bit length in eight
big-endian bytes, reaching a multiple of 64 bytes. -/
def sha256Pad (msg : List Nat) : List Nat :=
  let L := msg.length
  let zeros := (119 - L % 64) % 64
  msg ++ [0x80] ++ List.replicate zeros 0 ++ natToBytesBE 8 (L * 8)

/-- Splits a byte list into 64-byte blocks; `fuel` bounds the recursion and
is instantiated with the list length. -/
def chunk64 : Nat → List Nat → List (List Nat)
  | 0, _ => []
  | _, [] => []
  | fuel + 1, l => l.take 64 :: chunk64 fuel (l.drop 64)

/-- SHA-256 of a byte list, as the final state. -/
def sha256 (msg : List Nat) : Sha256State :=
  let padded := sha256Pad msg
  (chunk64 padded.length padded).foldl sha256Block sha256Init

/-- Big-endian bytes of a SHA-256 state (the 32-byte digest). -/
def stateBytes (s : Sha256State) : List Nat :=
  natToBytesBE 4 s.a ++ natToBytesBE 4 s.b ++ natToBytesBE 4 s.c ++
  natToBytesBE 4 s.d ++ natToBytesBE 4 s.e ++ natToBytesBE 4 s.f ++
  natToBytesBE 4 s.g ++ natToBytesBE 4 s.h

/-- Lowercase hex digit for a value below 16. -/
def hexDigit (n : Nat) : Char :=
  if n < 10 then Char.ofNat (48 + n) else Char.ofNat (87 + n)

/-- Eight lowercase hex characters of a 32-bit word, most significant
first. -/
def wordHex (w : Nat) : List Char :=
  [hexDigit (w / 268435456 % 16), hexDigit (w / 16777216 % 16),
   hexDigit (w / 1048576 % 16), hexDigit (w / 65536 % 16),
   hexDigit (w / 4096 % 16), hexDigit (w / 256 % 16),
   hexDigit (w / 16 % 16), hexDigit (w % 16)]

/-- Hex digest of a SHA-256 state: 64 lowercase hex characters, the model
of `hexdigest()`. -/
def digestHex (s : Sha256State) : String :=
  ⟨wordHex s.a ++ wordHex s.b ++ wordHex s.c ++ wordHex s.d ++
   wordHex s.e ++ wordHex s.f ++ wordHex s.g ++ wordHex s.h⟩

/-! ## HMAC-SHA256

Model of Python's `hmac.new(key, msg, hashlib.sha256)` (RFC 2104). -/

/-- HMAC-SHA256 of a message under a key, as the final SHA-256 state. -/
def hmacSha256 (key msg : List Nat) : Sha256State :=
  let k0 := if 64 < key.length then stateBytes (sha256 key) else key
  let kpad := k0 ++ List.replicate (64 - k0.length) 0
  let ipadKey := kpad.map (fun b => b ^^^ 0x36)
  let opadKey := kpad.map (fun b => b ^^^ 0x5c)
  sha256 (opadKey ++ stateBytes (sha256 (ipadKey ++ msg)))

/-- The hex digest of HMAC-SHA256: the value the webhook computes as
`expected_signature`. -/
def hmacSha256Hex (key msg : List Nat) : String :=
  digestHex (hmacSha256 key msg)

/-- UTF-8 encoding of one character (model of `str.encode` per code
point). -/
def utf8Char (c : Char) : List Nat :=
  let n := c.toNat
  if n < 0x80 then [n]
  else if n < 0x800 then [0xc0 + n / 64, 0x80 + n % 64]
  else if n < 0x10000 then
    [0xe0 + n / 4096, 0x80 + n / 64 % 64, 0x80 + n % 64]
  else
    [0xf0 + n / 262144, 0x80 + n / 4096 % 64, 0x80 + n / 64 % 64,
     0x80 + n % 64]

/-- UTF-8 encoding of a string, the model of Python's `str.encode()`. -/
def utf8Encode (s : String) : List Nat := s.data.flatMap utf8Char

/-! ## ISO-8601 timestamp parsing

Model of Python's `datetime.datetime.fromisoformat` (CPython 3.10+) on
the grammar `YYYY-MM-DD[<sep>HH[:MM[:SS[.f{1,6}]]][offset]]` with
`offset` empty, `Z`, `z`, or `±HH:MM`.  CPython accepts *any* single
character as the date-time separator `<sep>`; the model keeps that
behaviour, it is observable through the validator.  (CPython also
accepts some further spellings — basic format without dashes, ISO week
dates, offsets without a colon or with seconds, more than six
fractional digits — which the model leaves out; no claim depends on
them.) -/

/-- Numeric value of a decimal digit character. -/
def dval (c : Char) : Nat := c.toNat - 48

/-- Gregorian leap-year test. -/
def leapYear (y : Nat) : Bool := y % 4 == 0 && (y % 100 != 0 || y % 400 == 0)

/-- Days in a month, accounting for leap years. -/
def daysInMonth (y m : Nat) : Nat :=
  if m == 2 then (if leapYear y then 29 else 28)
  else if m == 4 || m == 6 || m == 9 || m == 11 then 30
  else 31

/-- Recognizes a trailing UTC-offset suffix: empty, `Z`, or `±HH:MM`
with the offset below 24 hours (CPython rejects a lowercase `z`). -/
def offsetOk : List Char → Bool
  | [] => true
  | ['Z'] => true
  | [sign, h1, h2, ':', m1, m2] =>
      (sign == '+' || sign == '-') &&
      h1.isDigit && h2.isDigit && m1.isDigit && m2.isDigit &&
      dval h1 * 10 + dval h2 ≤ 23 && dval m1 * 10 + dval m2 ≤ 59
  | _ => false

/-- Recognizes what may follow the seconds: nothing, a fractional part of
one to six digits, or directly an offset; each followed by `offsetOk`. -/
def secondsTail : List Char → Bool
  | '.' :: rest =>
      let p := rest.span Char.isDigit
      1 ≤ p.1.length && p.1.length ≤ 6 && offsetOk p.2
  | l => offsetOk l

/-- Recognizes the time-of-day part `HH[:MM[:SS...]]` with an optional
offset. -/
def timeOk : List Char → Bool
  | h1 :: h2 :: rest =>
      h1.isDigit && h2.isDigit && dval h1 * 10 + dval h2 ≤ 23 &&
      (match rest with
       | ':' :: m1 :: m2 :: rest2 =>
           m1.isDigit && m2.isDigit && dval m1 * 10 + dval m2 ≤ 59 &&
           (match rest2 with
            | ':' :: s1 :: s2 :: rest3 =>
                s1.isDigit && s2.isDigit && dval s1 * 10 + dval s2 ≤ 59 &&
                secondsTail rest3
            | l => offsetOk l)
       | l => offsetOk l)
  | _ => false

/-- Whether `datetime.fromisoformat` accepts the string (within the
modelled grammar): a calendar-valid `YYYY-MM-DD` date, optionally
followed by one separator character (any character) and a valid time. -/
def fromisoformatOk (s : List Char) : Bool :=
  match s with
  | y1 :: y2 :: y3 :: y4 :: '-' :: mo1 :: mo2 :: '-' :: d1 :: d2 :: rest =>
      y1.isDigit && y2.isDigit && y3.isDigit && y4.isDigit &&
      mo1.isDigit && mo2.isDigit && d1.isDigit && d2.isDigit &&
      (let y := ((dval y1 * 10 + dval y2) * 10 + dval y3) * 10 + dval y4
       let mo := dval mo1 * 10 + dval mo2
       let d := dval d1 * 10 + dval d2
       1 ≤ y && 1 ≤ mo && mo ≤ 12 && 1 ≤ d && d ≤ daysInMonth y mo) &&
      (match rest with
       | [] => true
       | _sep :: timeRest => timeOk timeRest)
  | _ => false

/-! ## Payload validation (`WebhookPayload` in `src/app/main.py`) -/

/-- Model of Python's `v.replace("Z", "+00:00")`: every occurrence of the
single character `Z` is replaced by `+00:00`. -/
def replaceZ : List Char → List Char
  | [] => []
  | c :: rest =>
      (if c = 'Z' then ['+', '0', '0', ':', '0', '0'] else [c]) ++ replaceZ rest

/-- Model of Python's `v.endswith("Z")`. -/
def endsWithZ (s : String) : Bool := s.data.getLast? == some 'Z'

/-- The `ts` field validator `WebhookPayload.validate_ts_strict_z`: the
value must end with `Z`, and with every `Z` replaced by `+00:00` (the
semantics of `str.replace`) it must be accepted by
`datetime.fromisoformat`; otherwise a `ValueError` is raised, modelled
as `Except.error` with the source's message (source messages quote the
letter Z). -/
def validate_ts_strict_z (v : String) : Except String String :=
  if ¬ endsWithZ v then
    .error "Timestamp must end with Z (UTC suffix)"
  else if fromisoformatOk (replaceZ v.data) then
    .ok v
  else
    .error "Invalid ISO-8601 format"

/-- Model of the pydantic pattern `^\+\d+$` on `from`/`to`: a plus sign
followed by one or more digits and nothing else.  (Python's `\d` also
matches non-ASCII decimal digits; the model restricts to ASCII, which no
claim depends on.) -/
def e164 (s : String) : Bool :=
  match s.data with
  | '+' :: rest => ¬ rest.isEmpty && rest.all Char.isDigit
  | _ => false

/-- A webhook payload after JSON decoding: the fields of
`WebhookPayload`, with `from`/`to` stored under their Python attribute
names `from_msisdn`/`to_msisdn` (the wire aliases are `from`/`to`). -/
structure WebhookPayload where
  message_id : String
  from_msisdn : String
  to_msisdn : String
  ts : String
  text : Option String
deriving Repr, DecidableEq

/-- Pydantic validation of `WebhookPayload`: the `from`/`to` patterns,
the `text` length bound of 4096, and the strict `ts` validator. -/
def payloadValid (p : WebhookPayload) : Bool :=
  e164 p.from_msisdn && e164 p.to_msisdn &&
  (match p.text with
   | none => true
   | some t => decide (t.length ≤ 4096)) &&
  (validate_ts_strict_z p.ts).isOk

/-! ## Data model and storage (`src/app/models.py`, `src/app/storage.py`) -/

/-- One row of the `messages` table. -/
structure Message where
  message_id : String
  from_msisdn : String
  to_msisdn : String
  ts : String
  text : Option String
deriving Repr, DecidableEq

/-- The `messages` table: its rows in insertion order.  `message_id` is
the primary key. -/
abbrev Store := List Message

/-- The row built from a payload by `insert_message` (the `messages(...)`
constructor call). -/
def msgOf (p : WebhookPayload) : Message :=
  { message_id := p.message_id, from_msisdn := p.from_msisdn,
    to_msisdn := p.to_msisdn, ts := p.ts, text := p.text }

/-- The lookup `select(messages).where(messages.message_id == id)` with
`.first()`: the first row with the given key. -/
def lookup (db : Store) (id : String) : Option Message :=
  db.find? (fun m => m.message_id == id)

/-- `insert_message` from `src/app/storage.py`.  `commitFails` models an
`SQLAlchemyError` raised inside the transaction (for instance at
`session.commit()`): the source catches it, logs, calls
`session.rollback()` — leaving the table unchanged — and falls off the
end of the function, returning Python `None` (modelled as `none`).
Otherwise the function looks the `message_id` up; a hit returns
`"duplicate"` without touching the row, a miss appends the new row and
returns `"created"`. -/
def insert_message (db : Store) (p : WebhookPayload) (commitFails : Bool) :
    Option String × Store :=
  if (lookup db p.message_id).isSome then
    (some "duplicate", db)
  else if commitFails then
    (none, db)
  else
    (some "created", db ++ [msgOf p])

/-! ## HTTP responses -/

/-- The `data`/`total`/`limit`/`offset` object returned by
`GET /messages`. -/
structure MessagesResult where
  data : List Message
  total : Nat
  limit : Int
  offset : Int
deriving Repr, DecidableEq

/-- One entry of `messages_per_sender`: the sender (serialized under the
key `from`) and its message count. -/
structure SenderCount where
  sender : String
  count : Nat
deriving Repr, DecidableEq

/-- The object returned by `GET /stats`. -/
structure StatsResult where
  total_messages : Nat
  senders_count : Nat
  messages_per_sender : List SenderCount
  first_message_ts : Option String
  last_message_ts : Option String
deriving Repr, DecidableEq

/-- Bodies of the responses the application produces.  `statusOk` is the
JSON object with the single pair `status: ok`; `detail msg` is the JSON
object with the single pair `detail: msg`, as produced by
`HTTPException`; `fieldErrors` is the list-of-field-errors body FastAPI
attaches to a 422 request-validation response. -/
inductive ResponseBody where
  | statusOk
  | detail (msg : String)
  | fieldErrors
  | messagesPage (r : MessagesResult)
  | statsPage (r : StatsResult)
  | healthText (msg : String)
deriving Repr, DecidableEq

/-- An HTTP response: status code and body. -/
structure HttpResponse where
  status : Nat
  body : ResponseBody
deriving Repr, DecidableEq

/-- The `extra_info` dict the webhook handler attaches to
`request.state` for the audit log. -/
structure ExtraInfo where
  result : Option String
  dup : Bool
  message_id : Option String
deriving Repr, DecidableEq

/-! ## The webhook endpoint (`webhook` in `src/app/main.py`) -/

/-- Python truthiness of an optional string: `None` and the empty string
are falsy. -/
def pyTruthy : Option String → Bool
  | none => false
  | some s => s ≠ ""

/-- `is_webhook_secret_set`: `bool(os.getenv("WEBHOOK_SECRET"))`, where
the argument is the process environment value (absent or a string). -/
def is_webhook_secret_set (secret : Option String) : Bool := pyTruthy secret

/-- `hmac.compare_digest` on ASCII strings: constant-time comparison
whose boolean result equals string equality.  (The model takes header
values to be ASCII strings; the computed hex digest always is.) -/
def compare_digest (a b : String) : Bool := a == b

/-- A `POST /webhook` request as the handler sees it: the raw body
bytes, the `X-Signature` header (`none` when the header is absent), and
the result of decoding the body into the `WebhookPayload` fields
(`none` when the body is not JSON or a required field is missing). -/
structure WebhookRequest where
  rawBody : List Nat
  xSignature : Option String
  parsedPayload : Option WebhookPayload
deriving Repr, DecidableEq

/-- FastAPI argument resolution for `POST /webhook`: the payload must
decode and pass pydantic validation, and the `X-Signature` header —
declared without a default, hence required — must be present.  Any
failure makes FastAPI answer 422 before the handler body runs. -/
def webhookArgs (req : WebhookRequest) : Option (WebhookPayload × String) :=
  match req.parsedPayload, req.xSignature with
  | some p, some sig => if payloadValid p then some (p, sig) else none
  | _, _ => none

/-- The 422 response FastAPI produces when request validation fails. -/
def fastapi422 : HttpResponse := ⟨422, .fieldErrors⟩

/-- The `webhook` handler of `src/app/main.py`, including FastAPI's
argument resolution.  Returns the response, the table after the request,
and the `extra_info` left on the request state (not set on the 422
path).  The handler's trailing `except Exception` (500,
`validation_error`) is unreachable for storage failures because
`insert_message` already catches `SQLAlchemyError` and returns `None`;
the model therefore reaches the 200 branch with result `none` when
`commitFails` holds. -/
def webhook (secret : Option String) (req : WebhookRequest) (db : Store)
    (commitFails : Bool) : HttpResponse × Store × Option ExtraInfo :=
  match webhookArgs req with
  | none => (fastapi422, db, none)
  | some (p, sig) =>
    if ¬ is_webhook_secret_set secret then
      (⟨401, .detail "webhook missing"⟩, db,
       some ⟨some "webhook missing", false, some p.message_id⟩)
    else if sig == "" then
      (⟨401, .detail "invalid_signature"⟩, db,
       some ⟨some "invalid_signature", false, some p.message_id⟩)
    else
      let expected := hmacSha256Hex (utf8Encode (secret.getD "")) req.rawBody
      if ¬ compare_digest expected sig then
        (⟨401, .detail "invalid_signature"⟩, db,
         some ⟨some "invalid_signature", false, some p.message_id⟩)
      else
        let r := insert_message db p commitFails
        (⟨200, .statusOk⟩, r.2,
         some ⟨r.1, r.1 == some "duplicate", some p.message_id⟩)

/-! ## The read endpoints (`get_messages`, `get_stats` in
`src/app/main.py`) -/

/-- The query parameters of `GET /messages`; `none` means the parameter
was not supplied.  `fromParam` is the parameter with wire name `from`
(handler variable `from_msisdn`). -/
structure MessagesQuery where
  limit : Option Int
  offset : Option Int
  fromParam : Option String
  since : Option String
  q : Option String
deriving Repr, DecidableEq

/-- FastAPI validation of the `Query` bounds: `limit` (default 50) must
lie in `[1, 100]` and `offset` (default 0) must be nonnegative,
otherwise the request is rejected with 422 before the handler runs. -/
def messagesParamsOk (qy : MessagesQuery) : Bool :=
  1 ≤ qy.limit.getD 50 && qy.limit.getD 50 ≤ 100 && 0 ≤ qy.offset.getD 0

/-- SQL `text ILIKE pattern` where the pattern is the filter string
between two `%` wildcards: a case-insensitive substring test, false on a
NULL column.  (A filter string itself containing wildcard characters
would behave differently; no claim depends on that.) -/
def ilikeContains (t : Option String) (needle : String) : Bool :=
  match t with
  | none => false
  | some s =>
      decide ((needle.data.map Char.toLower) <:+: (s.data.map Char.toLower))

/-- Byte-wise lexicographic strict comparison of character lists, the
model of the SQL string comparison used by `ts >= since` and `ORDER
BY`. -/
def charsLt : List Char → List Char → Bool
  | [], [] => false
  | [], _ :: _ => true
  | _ :: _, [] => false
  | a :: as, b :: bs =>
      if a.toNat < b.toNat then true
      else if b.toNat < a.toNat then false
      else charsLt as bs

/-- The corresponding non-strict string comparison. -/
def strLe (a b : String) : Bool := ! charsLt b.data a.data

/-- The corresponding strict string comparison. -/
def strLt (a b : String) : Bool := charsLt a.data b.data

/-- A character is determined by its code point. -/
theorem char_eq_of_toNat_eq {a b : Char} (h : a.toNat = b.toNat) : a = b :=
  Char.ext (UInt32.ext h)

/-- `charsLt` is asymmetric. -/
theorem charsLt_asymm :
    ∀ {a b : List Char}, charsLt a b = true → charsLt b a = false
  | [], [], h => by simp [charsLt] at h
  | [], _ :: _, _ => by simp [charsLt]
  | _ :: _, [], h => by simp [charsLt] at h
  | a :: as, b :: bs, h => by
      simp only [charsLt] at h ⊢
      split_ifs at h ⊢ with h1 h2 <;> try omega
      all_goals simp_all
      exact charsLt_asymm h

/-- `charsLt` is transitive. -/
theorem charsLt_trans :
    ∀ {a b c : List Char}, charsLt a b = true → charsLt b c = true →
      charsLt a c = true
  | [], b, [], _, h2 => by cases b <;> simp [charsLt] at h2
  | [], _, _ :: _, _, _ => by simp [charsLt]
  | _ :: _, [], _, h1, _ => by simp [charsLt] at h1
  | _ :: _, _ :: _, [], _, h2 => by simp [charsLt] at h2
  | a :: as, b :: bs, c :: cs, h1, h2 => by
      simp only [charsLt] at h1 h2 ⊢
      split_ifs at h1 h2 ⊢ with h3 h4 h5 h6 h7 h8 <;> try omega
      all_goals simp_all
      exact charsLt_trans h1 h2

/-- `charsLt` is co-transitive: a strict comparison passes through any
middle list. -/
theorem charsLt_cotrans :
    ∀ {a c : List Char} (b : List Char), charsLt a c = true →
      charsLt a b = true ∨ charsLt b c = true
  | [], _ :: _, [], _ => Or.inr (by simp [charsLt])
  | [], _ :: _, _ :: _, _ => Or.inl (by simp [charsLt])
  | [], [], _, h => by simp [charsLt] at h
  | _ :: _, [], _, h => by simp [charsLt] at h
  | a :: as, c :: cs, [], h => Or.inr (by simp [charsLt])
  | a :: as, c :: cs, b :: bs, h => by
      simp only [charsLt] at h ⊢
      split_ifs at h ⊢ with h1 h2 h3 h4 h5 h6 <;> try omega
      all_goals try simp_all
      exact charsLt_cotrans bs h

/-- Lists that are not strictly comparable either way are equal. -/
theorem charsLt_conn :
    ∀ {a b : List Char}, charsLt a b = false → charsLt b a = false → a = b
  | [], [], _, _ => rfl
  | [], _ :: _, h1, _ => by simp [charsLt] at h1
  | _ :: _, [], _, h2 => by simp [charsLt] at h2
  | a :: as, b :: bs, h1, h2 => by
      simp only [charsLt] at h1 h2
      split_ifs at h1 h2 with h3 h4 <;> try omega
      have hab : a = b := char_eq_of_toNat_eq (by omega)
      have := charsLt_conn h1 h2
      simp [hab, this]

/-- Strings that are not strictly comparable either way are equal. -/
theorem strLt_conn {a b : String} (h1 : strLt a b = false)
    (h2 : strLt b a = false) : a = b := by
  cases a; cases b
  exact congrArg String.mk (charsLt_conn h1 h2)

/-- `strLe` is transitive. -/
theorem strLe_trans {a b c : String} (h1 : strLe a b = true)
    (h2 : strLe b c = true) : strLe a c = true := by
  simp only [strLe, Bool.not_eq_true'] at h1 h2 ⊢
  by_contra hca
  rw [Bool.not_eq_false] at hca
  rcases charsLt_cotrans b.data hca with h | h
  · rw [h2] at h; cases h
  · rw [h1] at h; cases h

/-- The WHERE clause built by `get_messages`: each filter applies only
when its parameter is Python-truthy (present and non-empty), exactly as
the source's `if from_msisdn:` / `if since:` / `if q:` guards.  The
`since` filter is the SQL string comparison `ts >= since`. -/
def matchesFilters (qy : MessagesQuery) (m : Message) : Bool :=
  (match qy.fromParam with
   | some f => if f ≠ "" then m.from_msisdn == f else true
   | none => true) &&
  (match qy.since with
   | some s => if s ≠ "" then strLe s m.ts else true
   | none => true) &&
  (match qy.q with
   | some s => if s ≠ "" then ilikeContains m.text s else true
   | none => true)

/-- The ORDER BY relation of `get_messages`: `ts` ascending, ties broken
by `message_id` ascending. -/
def msgLe (a b : Message) : Prop :=
  strLt a.ts b.ts = true ∨
    (a.ts = b.ts ∧ strLe a.message_id b.message_id = true)

instance : DecidableRel msgLe := fun a b =>
  inferInstanceAs (Decidable (strLt a.ts b.ts = true ∨
    (a.ts = b.ts ∧ strLe a.message_id b.message_id = true)))

instance : IsTotal Message msgLe := by
  constructor
  intro a b
  cases hlt : strLt a.ts b.ts with
  | true => exact Or.inl (Or.inl hlt)
  | false =>
    cases hlt2 : strLt b.ts a.ts with
    | true => exact Or.inr (Or.inl hlt2)
    | false =>
      have hEq : a.ts = b.ts := strLt_conn hlt hlt2
      cases hid : charsLt b.message_id.data a.message_id.data with
      | false => exact Or.inl (Or.inr ⟨hEq, by simp [strLe, hid]⟩)
      | true =>
          exact Or.inr (Or.inr ⟨hEq.symm, by simp [strLe, charsLt_asymm hid]⟩)

instance : IsTrans Message msgLe := by
  constructor
  intro a b c hab hbc
  rcases hab with h1 | ⟨e1, l1⟩
  · rcases hbc with h2 | ⟨e2, _⟩
    · exact Or.inl (charsLt_trans h1 h2)
    · exact Or.inl (e2 ▸ h1)
  · rcases hbc with h2 | ⟨e2, l2⟩
    · exact Or.inl (e1 ▸ h2)
    · exact Or.inr ⟨e1.trans e2, strLe_trans l1 l2⟩

/-- The `get_messages` handler, including FastAPI's parameter
validation.  Order of operations, as in the source: parameter bounds,
then the `since` format check (`fromisoformat` after replacing `Z`, 422
with a `detail` body on failure), then filtering, the un-paginated
`total`, ORDER BY, OFFSET, LIMIT.  The ORDER BY is modelled by
insertion sort over `msgLe`. -/
def get_messages (db : Store) (qy : MessagesQuery) : HttpResponse :=
  if ¬ messagesParamsOk qy then fastapi422
  else if (match qy.since with
           | some s => ! fromisoformatOk (replaceZ s.data)
           | none => false) then
    ⟨422, .detail "since must be ISO-8601 UTC timestamp"⟩
  else
    let rows := db.filter (matchesFilters qy)
    let sortedRows := List.insertionSort msgLe rows
    let lim := qy.limit.getD 50
    let off := qy.offset.getD 0
    ⟨200, .messagesPage
      ⟨(sortedRows.drop off.toNat).take lim.toNat, rows.length, lim, off⟩⟩

/-- Descending order on per-sender counts, the ORDER BY of the
`messages_per_sender` query. -/
def countGe (a b : SenderCount) : Prop := b.count ≤ a.count

instance : DecidableRel countGe := fun a b =>
  inferInstanceAs (Decidable (b.count ≤ a.count))

instance : IsTotal SenderCount countGe :=
  ⟨fun a b => (le_total b.count a.count).imp id id⟩

instance : IsTrans SenderCount countGe :=
  ⟨fun _ _ _ hab hbc => le_trans hbc hab⟩

/-- Ascending order on timestamps, for the first/last message queries. -/
def tsLe (a b : Message) : Prop := strLe a.ts b.ts = true

instance : DecidableRel tsLe := fun a b =>
  inferInstanceAs (Decidable (strLe a.ts b.ts = true))

instance : IsTotal Message tsLe := by
  constructor
  intro a b
  cases h : charsLt b.ts.data a.ts.data with
  | false => exact Or.inl (by simp [tsLe, strLe, h])
  | true => exact Or.inr (by simp [tsLe, strLe, charsLt_asymm h])

instance : IsTrans Message tsLe := ⟨fun _ _ _ h1 h2 => strLe_trans h1 h2⟩

/-- Descending order on timestamps. -/
def tsGe (a b : Message) : Prop := strLe b.ts a.ts = true

instance : DecidableRel tsGe := fun a b =>
  inferInstanceAs (Decidable (strLe b.ts a.ts = true))

instance : IsTotal Message tsGe := by
  constructor
  intro a b
  cases h : charsLt b.ts.data a.ts.data with
  | false => exact Or.inr (by simp [tsGe, strLe, h])
  | true => exact Or.inl (by simp [tsGe, strLe, charsLt_asymm h])

instance : IsTrans Message tsGe := ⟨fun _ _ _ h1 h2 => strLe_trans h2 h1⟩

/-- The `get_stats` handler.  `GROUP BY from_msisdn` is modelled as the
deduplicated sender list with a count per sender; `ORDER BY count DESC
LIMIT 10` as an insertion sort under `countGe` followed by `take 10`
(SQL leaves the order among equal counts unspecified; the model fixes
one).  The first/last timestamps are the heads of the `ts`-ascending
and `ts`-descending orderings. -/
def get_stats (db : Store) : StatsResult :=
  let senders := (db.map (fun m => m.from_msisdn)).dedup
  let pairs := senders.map
    (fun s => SenderCount.mk s (db.countP (fun m => m.from_msisdn == s)))
  { total_messages := db.length
    senders_count := senders.length
    messages_per_sender := (List.insertionSort countGe pairs).take 10
    first_message_ts := (List.insertionSort tsLe db).head?.map (fun m => m.ts)
    last_message_ts := (List.insertionSort tsGe db).head?.map (fun m => m.ts) }

/-! ## Health endpoints, routing and the audit middleware
(`src/app/main.py`, `src/app/logging_utils.py`) -/

/-- `GET /health/live` (`fit_check`). -/
def fit_check : HttpResponse := ⟨200, .healthText "live route working fine"⟩

/-- `GET /health/ready` (`ready_check`): 503 unless the secret is set
and the database answers the readiness probe. -/
def ready_check (secret : Option String) (dbReady : Bool) : HttpResponse :=
  if ¬ is_webhook_secret_set secret || ¬ dbReady then ⟨503, .healthText "error"⟩
  else ⟨200, .healthText "ready route working fine"⟩

/-- Process-wide state the handlers read: the `WEBHOOK_SECRET`
environment value, the table, whether a webhook transaction would fail
(`commitFails`), and whether the readiness probe succeeds. -/
structure AppEnv where
  secret : Option String
  db : Store
  commitFails : Bool
  dbReady : Bool

/-- An inbound HTTP request, by route. -/
inductive AppRequest where
  | webhookPost (req : WebhookRequest)
  | messagesGet (qy : MessagesQuery)
  | statsGet
  | healthLive
  | healthReady
  | unknownPath
deriving DecidableEq

/-- FastAPI routing: dispatches a request to its handler and returns the
response, the table afterwards, and any `extra_info` the handler left on
the request state.  Unknown paths get Starlette's 404.  Every handler
outcome — including `HTTPException` and request-validation failures —
is converted to a response inside the application before the audit
middleware resumes. -/
def dispatch (env : AppEnv) : AppRequest → HttpResponse × Store × Option ExtraInfo
  | .webhookPost req => webhook env.secret req env.db env.commitFails
  | .messagesGet qy => (get_messages env.db qy, env.db, none)
  | .statsGet => (⟨200, .statsPage (get_stats env.db)⟩, env.db, none)
  | .healthLive => (fit_check, env.db, none)
  | .healthReady => (ready_check env.secret env.dbReady, env.db, none)
  | .unknownPath => (⟨404, .detail "Not Found"⟩, env.db, none)

/-- Per-request data the middleware measures or generates: the fresh
`uuid4` correlation id, method and path, the emission timestamp, and the
measured wall-clock latency in milliseconds (wall-clock values are
parameters of the model). -/
structure RequestMeta where
  request_id : String
  method : String
  path : String
  now_ts : String
  latency_ms : Nat
deriving Repr, DecidableEq

/-- One line of `log_requests`' JSON output. -/
structure LogRecord where
  ts : String
  level : String
  request_id : String
  method : String
  path : String
  status : Nat
  latency_ms : Nat
  extra : Option ExtraInfo
deriving Repr, DecidableEq

/-- The `log_requests` middleware wrapped around the application: runs
the handler via `call_next`, then emits exactly one record carrying the
response status, `INFO` below 400 and `ERROR` from 400 up, the
correlation id, method, path, latency, and whatever `extra_info` the
handler attached. -/
def log_requests (meta : RequestMeta) (env : AppEnv) (r : AppRequest) :
    HttpResponse × Store × List LogRecord :=
  let out := dispatch env r
  (out.1, out.2.1,
   [⟨meta.now_ts, if out.1.status < 400 then "INFO" else "ERROR",
     meta.request_id, meta.method, meta.path, out.1.status, meta.latency_ms,
     out.2.2⟩])

/-! ## Concrete data for witnesses -/

/-- A concrete valid payload (spec §8 scenario, message id `m1`). -/
def pay1 : WebhookPayload :=
  ⟨"m1", "+1555", "+1666", "2025-01-15T10:00:00Z", none⟩

/-- A second delivery of message id `m1` with different `from` and
`text` values. -/
def pay2 : WebhookPayload :=
  ⟨"m1", "+1777", "+1666", "2025-01-15T10:00:00Z", some "hello"⟩

/-- Raw body bytes of the first delivery. -/
def body1 : List Nat := utf8Encode "body-one"

/-- Raw body bytes of the second delivery. -/
def body2 : List Nat := utf8Encode "body-two"

/-- First delivery, correctly signed under the secret `s3cr3t`. -/
def reqA : WebhookRequest :=
  ⟨body1, some (hmacSha256Hex (utf8Encode "s3cr3t") body1), some pay1⟩

/-- Second delivery, correctly signed under the secret `s3cr3t`. -/
def reqB : WebhookRequest :=
  ⟨body2, some (hmacSha256Hex (utf8Encode "s3cr3t") body2), some pay2⟩

/-- A two-sender store used by the read-endpoint witnesses, listed out
of timestamp order. -/
def dbSample : Store :=
  [⟨"m9", "+1555", "+1666", "2025-03-01T00:00:00Z", none⟩,
   ⟨"m8", "+1777", "+1666", "2025-01-02T00:00:00Z", some "hi"⟩,
   ⟨"m7", "+1555", "+1666", "2025-01-02T00:00:00Z", some "yo"⟩]

/-- The `GET /messages` query with every parameter absent. -/
def qDefault : MessagesQuery := ⟨none, none, none, none, none⟩

/-- The page `GET /messages` returns for `dbSample` under default
parameters. -/
def rSample : MessagesResult :=
  ⟨[⟨"m7", "+1555", "+1666", "2025-01-02T00:00:00Z", some "yo"⟩,
    ⟨"m8", "+1777", "+1666", "2025-01-02T00:00:00Z", some "hi"⟩,
    ⟨"m9", "+1555", "+1666", "2025-03-01T00:00:00Z", none⟩],
   3, 50, 0⟩

/-! ## Helper lemmas -/

/-- A successful `webhookArgs` resolution pins the header field. -/
theorem webhookArgs_xSignature {req : WebhookRequest}
    {pr : WebhookPayload × String} (h : webhookArgs req = some pr) :
    req.xSignature = some pr.2 := by
  unfold webhookArgs at h
  rcases req with ⟨b, xs, pp⟩
  cases pp <;> cases xs <;> simp_all
  obtain ⟨h1, h2⟩ := h
  subst h2
  rfl

/-- A successful `webhookArgs` resolution pins the payload field and its
validity. -/
theorem webhookArgs_payload {req : WebhookRequest}
    {pr : WebhookPayload × String} (h : webhookArgs req = some pr) :
    req.parsedPayload = some pr.1 ∧ payloadValid pr.1 = true := by
  unfold webhookArgs at h
  rcases req with ⟨b, xs, pp⟩
  cases pp <;> cases xs <;> simp_all
  obtain ⟨h1, h2⟩ := h
  subst h2
  exact ⟨rfl, h1⟩

/-- Appending a row with a fresh key makes it the row the key lookup
finds. -/
theorem lookup_append_fresh {db : Store} {id : String} (m : Message)
    (hdb : lookup db id = none) (hm : m.message_id = id) :
    lookup (db ++ [m]) id = some m := by
  induction db with
  | nil => simp [lookup, List.find?, hm]
  | cons a l ih =>
      unfold lookup at hdb ⊢
      rw [List.cons_append, List.find?]
      rw [List.find?] at hdb
      cases hML : (a.message_id == id) with
      | true => simp [hML] at hdb
      | false => simp only [hML] at hdb ⊢; exact ih hdb

/-- Every hex digest of an HMAC-SHA256 value has 64 characters. -/
theorem hmacSha256Hex_length (key msg : List Nat) :
    (hmacSha256Hex key msg).length = 64 := by
  simp [hmacSha256Hex, digestHex, wordHex, String.length]

/-- An HMAC-SHA256 hex digest is never the empty string. -/
theorem hmacSha256Hex_ne_empty (key msg : List Nat) :
    hmacSha256Hex key msg ≠ "" := by
  intro h
  have := congrArg String.length h
  rw [hmacSha256Hex_length] at this
  exact absurd this (by decide)

/-- The authenticated path of the handler: with the secret set, a valid
payload and the signature equal to the HMAC of the raw body, the
response is 200 `statusOk` and the store and audit outcome are those of
`insert_message`. -/
theorem webhook_authenticated (secret : String) (req : WebhookRequest)
    (p : WebhookPayload) (db : Store) (cf : Bool)
    (hp : req.parsedPayload = some p) (hv : payloadValid p = true)
    (hs : req.xSignature = some (hmacSha256Hex (utf8Encode secret) req.rawBody))
    (hsec : secret ≠ "") :
    webhook (some secret) req db cf =
      (⟨200, .statusOk⟩, (insert_message db p cf).2,
       some ⟨(insert_message db p cf).1,
             (insert_message db p cf).1 == some "duplicate",
             some p.message_id⟩) := by
  rcases req with ⟨b, xs, pp⟩
  simp only at hp hs
  subst hp hs
  simp [webhook, webhookArgs, hv, is_webhook_secret_set, pyTruthy, hsec,
    hmacSha256Hex_ne_empty, compare_digest]

end Webhook

namespace Webhook

/-! ## The claims -/

/-- C3: the claim states that a `POST /webhook` request lacking the
`X-Signature` header is answered 401 with detail `invalid_signature`.
The code declares the header parameter without a default, so FastAPI
rejects such a request with a 422 field-error response before the
handler — whose own missing-header branch would produce the 401 — can
run: for every configuration, body, payload and store, the response is
the 422 request-validation response (and the store is untouched, with no
`extra_info` set). -/
theorem webhook_missing_header_is_422
    (secret : Option String) (db : Store) (cf : Bool)
    (rawBody : List Nat) (parsed : Option WebhookPayload) :
    webhook secret ⟨rawBody, none, parsed⟩ db cf = (fastapi422, db, none) := by
  cases parsed <;> simp [webhook, webhookArgs]

/-- C6: a webhook request rejected at an authentication gate — secret
not configured, signature header absent, or signature empty or
mismatched, i.e. every 401 answer and the absent-header case — leaves
the message store exactly as it was: nothing downstream of a failed gate
executes. -/
theorem auth_rejection_leaves_store
    (secret : Option String) (req : WebhookRequest) (db : Store) (cf : Bool)
    (h : (webhook secret req db cf).1.status = 401 ∨ req.xSignature = none) :
    (webhook secret req db cf).2.1 = db := by
  cases hw : webhookArgs req with
  | none => simp [webhook, hw]
  | some pr =>
      have hx := webhookArgs_xSignature hw
      rcases h with h | h
      · simp only [webhook, hw] at h ⊢
        split at h
        · simp_all
        · split at h
          · simp_all
          · split at h
            · simp_all
            · simp at h
      · rw [h] at hx; cases hx

/-- C1: an authenticated delivery of a valid payload whose `message_id`
is not yet stored is answered 200 `statusOk` with outcome `created` and
appends the row; a second authenticated delivery with the same
`message_id` — here with arbitrary different field values — is answered
the same 200 `statusOk` with outcome `duplicate`, and the record stored
under that `message_id` still holds the first delivery's field
values. -/
theorem webhook_created_then_duplicate
    (secret : String) (db : Store)
    (rq1 rq2 : WebhookRequest) (p1 p2 : WebhookPayload)
    (hp1 : rq1.parsedPayload = some p1) (hp2 : rq2.parsedPayload = some p2)
    (hv1 : payloadValid p1 = true) (hv2 : payloadValid p2 = true)
    (hs1 : rq1.xSignature = some (hmacSha256Hex (utf8Encode secret) rq1.rawBody))
    (hs2 : rq2.xSignature = some (hmacSha256Hex (utf8Encode secret) rq2.rawBody))
    (hsec : secret ≠ "")
    (hfresh : lookup db p1.message_id = none)
    (hsame : p2.message_id = p1.message_id) :
    webhook (some secret) rq1 db false =
      (⟨200, .statusOk⟩, db ++ [msgOf p1],
       some ⟨some "created", false, some p1.message_id⟩) ∧
    webhook (some secret) rq2 (db ++ [msgOf p1]) false =
      (⟨200, .statusOk⟩, db ++ [msgOf p1],
       some ⟨some "duplicate", true, some p2.message_id⟩) ∧
    lookup (db ++ [msgOf p1]) p2.message_id = some (msgOf p1) := by
  have hlk : lookup (db ++ [msgOf p1]) p2.message_id = some (msgOf p1) := by
    rw [hsame]
    exact lookup_append_fresh (msgOf p1) hfresh rfl
  have hi1 : insert_message db p1 false = (some "created", db ++ [msgOf p1]) := by
    simp [insert_message, hfresh]
  have hi2 : insert_message (db ++ [msgOf p1]) p2 false =
      (some "duplicate", db ++ [msgOf p1]) := by
    simp [insert_message, hlk]
  refine ⟨?_, ?_, hlk⟩
  · rw [webhook_authenticated secret rq1 p1 db false hp1 hv1 hs1 hsec, hi1]
    simp
  · rw [webhook_authenticated secret rq2 p2 (db ++ [msgOf p1]) false hp2 hv2 hs2 hsec, hi2]
    simp

/-- Witness for C1 at the concrete secret `s3cr3t`, deliveries `reqA`
and `reqB` and the empty store. -/
theorem webhook_created_then_duplicate_witness :
    webhook (some "s3cr3t") reqA [] false =
      (⟨200, .statusOk⟩, [msgOf pay1],
       some ⟨some "created", false, some pay1.message_id⟩) ∧
    webhook (some "s3cr3t") reqB [msgOf pay1] false =
      (⟨200, .statusOk⟩, [msgOf pay1],
       some ⟨some "duplicate", true, some pay2.message_id⟩) ∧
    lookup [msgOf pay1] pay2.message_id = some (msgOf pay1) := by
  have h := webhook_created_then_duplicate "s3cr3t" [] reqA reqB pay1 pay2
    rfl rfl (by decide) (by decide) rfl rfl (by decide) rfl rfl
  rwa [List.nil_append] at h

/-- C2: the claim states that an unexpected persistence failure on an
authenticated, valid delivery yields status 500 with audit outcome
`validation_error`.  The transaction is indeed rolled back — the store
is unchanged — but `insert_message` swallows the `SQLAlchemyError` and
returns `None`, so the handler's 500/`validation_error` branch never
runs: the response is 200 `statusOk` and the audit outcome is `none`. -/
theorem webhook_storage_failure_returns_200
    (secret : String) (db : Store) (req : WebhookRequest) (p : WebhookPayload)
    (hp : req.parsedPayload = some p) (hv : payloadValid p = true)
    (hs : req.xSignature = some (hmacSha256Hex (utf8Encode secret) req.rawBody))
    (hsec : secret ≠ "")
    (hfresh : lookup db p.message_id = none) :
    webhook (some secret) req db true =
      (⟨200, .statusOk⟩, db, some ⟨none, false, some p.message_id⟩) := by
  have hi : insert_message db p true = (none, db) := by
    simp [insert_message, hfresh]
  rw [webhook_authenticated secret req p db true hp hv hs hsec, hi]
  simp

/-- Witness for C2 at the concrete secret `s3cr3t`, delivery `reqA` and
the empty store, with the transaction failing. -/
theorem webhook_storage_failure_returns_200_witness :
    webhook (some "s3cr3t") reqA [] true =
      (⟨200, .statusOk⟩, [], some ⟨none, false, some pay1.message_id⟩) :=
  webhook_storage_failure_returns_200 "s3cr3t" [] reqA pay1
    rfl (by decide) rfl (by decide) rfl

/-- C4: with the secret configured, the signature gate accepts a
provided signature exactly when it equals the hex HMAC-SHA256 of the raw
request body under the secret, and any other signature — in particular
one computed over a different body whose digest differs — makes the
webhook answer 401 `invalid_signature`. -/
theorem signature_gate_exact
    (secret : String) (body : List Nat) (hsec : secret ≠ "") :
    (∀ sig : String,
        compare_digest (hmacSha256Hex (utf8Encode secret) body) sig = true ↔
          sig = hmacSha256Hex (utf8Encode secret) body) ∧
    (∀ (sig : String) (req : WebhookRequest) (p : WebhookPayload)
        (db : Store) (cf : Bool),
        req.rawBody = body → req.parsedPayload = some p →
        payloadValid p = true → req.xSignature = some sig →
        sig ≠ hmacSha256Hex (utf8Encode secret) body →
        webhook (some secret) req db cf =
          (⟨401, .detail "invalid_signature"⟩, db,
           some ⟨some "invalid_signature", false, some p.message_id⟩)) := by
  constructor
  · intro sig
    simp only [compare_digest, beq_iff_eq]
    exact eq_comm
  · intro sig req p db cf hb hp hv hx hne
    rcases req with ⟨b, xs, pp⟩
    simp only at hb hp hx
    subst hb hp hx
    simp [webhook, webhookArgs, hv, is_webhook_secret_set, pyTruthy, hsec,
      compare_digest]
    intro hStr hEq
    exact absurd hEq.symm hne

/-- Witness for C4: under the secret `s3cr3t` the gate accepts the
correct digest of `body1`, and the wrong signature `x` is answered 401
`invalid_signature`. -/
theorem signature_gate_exact_witness :
    (compare_digest (hmacSha256Hex (utf8Encode "s3cr3t") body1)
        (hmacSha256Hex (utf8Encode "s3cr3t") body1) = true ↔
      hmacSha256Hex (utf8Encode "s3cr3t") body1 =
        hmacSha256Hex (utf8Encode "s3cr3t") body1) ∧
    webhook (some "s3cr3t") ⟨body1, some "x", some pay1⟩ [] false =
      (⟨401, .detail "invalid_signature"⟩, [],
       some ⟨some "invalid_signature", false, some pay1.message_id⟩) :=
  ⟨(signature_gate_exact "s3cr3t" body1 (by decide)).1 _,
   (signature_gate_exact "s3cr3t" body1 (by decide)).2 "x"
     ⟨body1, some "x", some pay1⟩ pay1 [] false rfl rfl (by decide) rfl
     (fun hcontra => by
        have h2 := congrArg String.length hcontra
        rw [hmacSha256Hex_length] at h2
        exact absurd h2 (by decide))⟩

/-- C5 counterexample: the string `2025-01-15Z10:00:00Z` ends with `Z`,
and with only its *trailing* `Z` replaced by `+00:00` it parses as a
valid ISO-8601 timestamp (`fromisoformat` accepts any single character,
here the interior `Z`, as the date-time separator) — so the claim says
it is accepted — yet the validator rejects it, because the source
replaces *every* `Z` and the mangled string no longer parses. -/
theorem validate_ts_trailing_cex :
    endsWithZ "2025-01-15Z10:00:00Z" = true ∧
    fromisoformatOk
      (("2025-01-15Z10:00:00Z").data.dropLast ++ ("+00:00").data) = true ∧
    (validate_ts_strict_z "2025-01-15Z10:00:00Z").isOk = false := by
  decide

/-- C5 (amended): the validator accepts a `ts` exactly when it ends with
the literal `Z` and the string obtained by replacing **every**
occurrence of `Z` with `+00:00` parses as a valid ISO-8601 timestamp;
in particular any other UTC notation such as a `+00:00` suffix is
rejected by the first condition. -/
theorem validate_ts_accept_iff (v : String) :
    (validate_ts_strict_z v).isOk = true ↔
      (endsWithZ v = true ∧ fromisoformatOk (replaceZ v.data) = true) := by
  unfold validate_ts_strict_z
  by_cases h1 : endsWithZ v = true
  · by_cases h2 : fromisoformatOk (replaceZ v.data) = true
    · simp [h1, h2, Except.isOk, Except.toBool]
    · simp [h1, h2, Except.isOk, Except.toBool]
  · simp [h1, Except.isOk, Except.toBool]

/-- Witness for C5's amended theorem: the spec §8 timestamp
`2025-01-15T10:00:00Z` is accepted. -/
theorem validate_ts_accept_iff_witness :
    (validate_ts_strict_z "2025-01-15T10:00:00Z").isOk = true :=
  (validate_ts_accept_iff "2025-01-15T10:00:00Z").mpr ⟨by decide, by decide⟩

/-- C7: whenever `GET /messages` returns a page — for every store state
and filter combination, hence regardless of insertion order — the data
list is sorted by `(ts, message_id)` ascending, and `total` is the
number of rows matching the filters, ignoring `limit` and `offset`. -/
theorem messages_sorted_and_total
    (db : Store) (qy : MessagesQuery) (r : MessagesResult)
    (h : (get_messages db qy).body = .messagesPage r) :
    List.Sorted msgLe r.data ∧
    r.total = (db.filter (matchesFilters qy)).length := by
  unfold get_messages at h
  split at h
  · simp [fastapi422] at h
  · split at h
    · simp at h
    · simp only [ResponseBody.messagesPage.injEq] at h
      subst h
      refine ⟨?_, rfl⟩
      exact List.Pairwise.sublist
        ((List.take_sublist _ _).trans (List.drop_sublist _ _))
        (List.sorted_insertionSort msgLe _)

/-- Witness for C7: the page returned for `dbSample` under default
parameters is sorted and counts all three rows. -/
theorem messages_sorted_and_total_witness :
    List.Sorted msgLe rSample.data ∧
    rSample.total = (dbSample.filter (matchesFilters qDefault)).length :=
  messages_sorted_and_total dbSample qDefault rSample (by decide)

/-- C8: for every store state, `messages_per_sender` in the `/stats`
response is sorted by count descending, has at most ten entries, and
each entry's count is the number of stored messages whose `from_msisdn`
equals that sender. -/
theorem stats_top_senders (db : Store) :
    List.Sorted countGe (get_stats db).messages_per_sender ∧
    (get_stats db).messages_per_sender.length ≤ 10 ∧
    ∀ e ∈ (get_stats db).messages_per_sender,
      e.count = db.countP (fun m => m.from_msisdn == e.sender) := by
  simp only [get_stats]
  refine ⟨?_, ?_, ?_⟩
  · exact List.Pairwise.sublist (List.take_sublist _ _)
      (List.sorted_insertionSort countGe _)
  · exact List.length_take_le 10 _
  · intro e he
    have h2 := (List.take_sublist _ _).subset he
    have h3 := (List.perm_insertionSort countGe _).subset h2
    obtain ⟨s, hs, rfl⟩ := List.mem_map.mp h3
    rfl

/-- Witness for C8: on `dbSample` the list has at most ten entries and
the entry for sender `+1555` counts its two messages. -/
theorem stats_top_senders_witness :
    (get_stats dbSample).messages_per_sender.length ≤ 10 ∧
    (SenderCount.mk "+1555" 2).count
      = dbSample.countP (fun m => m.from_msisdn == (SenderCount.mk "+1555" 2).sender) :=
  ⟨(stats_top_senders dbSample).2.1,
   (stats_top_senders dbSample).2.2 ⟨"+1555", 2⟩ (by decide)⟩

/-- C10: `GET /messages` bounds its pagination parameters: a supplied
`limit` outside `[1, 100]` or a negative supplied `offset` is rejected
with the 422 request-validation response before any query runs; on a
returned page the effective limit is the supplied one or the default 50,
the effective offset the supplied one or the default 0, the bounds hold,
and the data list has at most `limit` entries. -/
theorem messages_pagination_bounds (db : Store) (qy : MessagesQuery) :
    (∀ l : Int, qy.limit = some l → (l < 1 ∨ 100 < l) →
        get_messages db qy = fastapi422) ∧
    (∀ o : Int, qy.offset = some o → o < 0 →
        get_messages db qy = fastapi422) ∧
    (∀ r : MessagesResult, (get_messages db qy).body = .messagesPage r →
        r.data.length ≤ r.limit.toNat ∧
        r.limit = qy.limit.getD 50 ∧ r.offset = qy.offset.getD 0 ∧
        1 ≤ r.limit ∧ r.limit ≤ 100 ∧ 0 ≤ r.offset) := by
  refine ⟨?_, ?_, ?_⟩
  · intro l hl hout
    have hpf : messagesParamsOk qy = false := by
      simp [messagesParamsOk, hl]
      omega
    simp [get_messages, hpf]
  · intro o ho hneg
    have hpf : messagesParamsOk qy = false := by
      simp [messagesParamsOk, ho]
      omega
    simp [get_messages, hpf]
  · intro r hr
    by_cases hok : messagesParamsOk qy = true
    · have hbounds : (1 ≤ qy.limit.getD 50 ∧ qy.limit.getD 50 ≤ 100) ∧
          0 ≤ qy.offset.getD 0 := by
        simpa [messagesParamsOk] using hok
      unfold get_messages at hr
      rw [if_neg (by simp [hok])] at hr
      split at hr
      · simp at hr
      · simp only [ResponseBody.messagesPage.injEq] at hr
        subst hr
        exact ⟨List.length_take_le _ _, rfl, rfl,
          hbounds.1.1, hbounds.1.2, hbounds.2⟩
    · simp [get_messages, eq_false_of_ne_true hok, fastapi422] at hr

/-- Witness for C10: `limit = 200` and `offset = -1` are rejected on
`dbSample`, and the default page there has at most 50 rows with the
default limit and offset. -/
theorem messages_pagination_bounds_witness :
    get_messages dbSample ⟨some 200, none, none, none, none⟩ = fastapi422 ∧
    get_messages dbSample ⟨none, some (-1), none, none, none⟩ = fastapi422 ∧
    (rSample.data.length ≤ rSample.limit.toNat ∧
     rSample.limit = qDefault.limit.getD 50 ∧
     rSample.offset = qDefault.offset.getD 0 ∧
     1 ≤ rSample.limit ∧ rSample.limit ≤ 100 ∧ 0 ≤ rSample.offset) :=
  ⟨(messages_pagination_bounds dbSample ⟨some 200, none, none, none, none⟩).1
      200 rfl (Or.inr (by decide)),
   (messages_pagination_bounds dbSample ⟨none, some (-1), none, none, none⟩).2.1
      (-1) rfl (by decide),
   (messages_pagination_bounds dbSample qDefault).2.2 rSample (by decide)⟩

/-- Witness for C6: with no secret configured, a signed request leaves
`dbSample` unchanged. -/
theorem auth_rejection_leaves_store_witness :
    (webhook none ⟨body1, some "x", some pay1⟩ dbSample false).2.1 = dbSample :=
  auth_rejection_leaves_store none ⟨body1, some "x", some pay1⟩ dbSample false
    (Or.inl (by decide))

/-- C9: every HTTP request handled by the application produces exactly
one audit record — also on early rejection paths, since `HTTPException`
and request-validation failures are turned into responses inside
`call_next` — and that record carries severity `INFO` when the response
status is below 400 and `ERROR` otherwise, together with the per-request
correlation id, method, path, response status and latency in
milliseconds. -/
theorem audit_record_exactly_once
    (meta : RequestMeta) (env : AppEnv) (r : AppRequest) :
    (log_requests meta env r).2.2 =
      [⟨meta.now_ts,
        if (log_requests meta env r).1.status < 400 then "INFO" else "ERROR",
        meta.request_id, meta.method, meta.path,
        (log_requests meta env r).1.status, meta.latency_ms,
        (dispatch env r).2.2⟩] := by
  simp [log_requests]

end Webhook
